import Mathlib

/-!
Shallow embedding of the social-media aggregation proxy of `src/app.py`
(the `/api/social-media` endpoint, its three platform adapters, and the
flask-caching wrapper configured with `timeout=300, query_string=True`).

JSON values decoded by `response.json()` are modelled by `JVal`; the atoms
occurring in every field this code reads are strings and null, so those are
the only atoms modelled.  Python dictionary indexing (`d[k]`, raising
`KeyError`/`TypeError` on a missing key or a non-dict), `d.get(k, default)`
(raising `AttributeError` on a non-dict), iteration (lists, strings and
dicts are iterable; other values raise `TypeError`), and `str()` are
embedded explicitly, because the endpoint's error handling distinguishes
`ValueError` (handled as HTTP 400) from every other exception (HTTP 500).
`ValueError` covers more than the credential checks: the `JSONDecodeError`
raised by `response.json()` on an undecodable body subclasses `ValueError`,
so it too reaches the caller as a 400 carrying the decode message.
-/

inductive JVal where
  | jnull : JVal
  | jstr (s : String) : JVal
  | jarr (elems : List JVal) : JVal
  | jobj (fields : List (String × JVal)) : JVal

/-- Python exceptions as the endpoint's handler distinguishes them:
`ValueError` (with its message) is caught separately — this covers the
adapters' credential checks and `JSONDecodeError`, which subclasses
`ValueError`; every other exception (`requests` network and status errors,
`KeyError`, `TypeError`, `AttributeError`) falls into the generic
`except Exception` branch. -/
inductive PyError where
  | valueError (msg : String) : PyError
  | exn : PyError
deriving DecidableEq

/-- First-match lookup in a decoded JSON object's field list (Python dicts
hold each key once, so first-match agrees with dict lookup). -/
def jLookup : List (String × JVal) → String → Option JVal
  | [], _ => none
  | (k, v) :: fs, key => if k = key then some v else jLookup fs key

/-- Python `d[k]`: the value when `d` is a dict containing `k`; otherwise a
`KeyError`/`TypeError` (a non-`ValueError` exception). -/
def pyIndex : JVal → String → Except PyError JVal
  | .jobj fs, key =>
      match jLookup fs key with
      | some v => .ok v
      | none => .error .exn
  | _, _ => .error .exn

/-- Python `d.get(k, default)`: `AttributeError` when `d` is not a dict. -/
def pyGet (v : JVal) (key : String) (default : JVal) : Except PyError JVal :=
  match v with
  | .jobj fs => .ok ((jLookup fs key).getD default)
  | _ => .error .exn

/-- Python `d.get(k)` (default `None`), keeping absence as `none`. -/
def pyGetOpt (v : JVal) (key : String) : Except PyError (Option JVal) :=
  match v with
  | .jobj fs => .ok (jLookup fs key)
  | _ => .error .exn

/-- Python iteration `for x in v`: lists yield their elements, strings
their characters, dicts their keys; other values raise `TypeError`. -/
def pyIter : JVal → Except PyError (List JVal)
  | .jarr es => .ok es
  | .jstr s => .ok (s.data.map (fun c => .jstr c.toString))
  | .jobj fs => .ok (fs.map (fun kv => .jstr kv.1))
  | .jnull => .error .exn

def pyQuote : String := (Char.ofNat 39).toString

mutual
/-- Python `repr` of a decoded JSON value (used by `str` on lists/dicts). -/
def pyRepr : JVal → String
  | .jnull => "None"
  | .jstr s => pyQuote ++ s ++ pyQuote
  | .jarr es => "[" ++ pyReprArr es ++ "]"
  | .jobj fs => "\x7b" ++ pyReprObj fs ++ "\x7d"

def pyReprArr : List JVal → String
  | [] => ""
  | [v] => pyRepr v
  | v :: w :: vs => pyRepr v ++ ", " ++ pyReprArr (w :: vs)

def pyReprObj : List (String × JVal) → String
  | [] => ""
  | [(k, v)] => pyQuote ++ k ++ pyQuote ++ ": " ++ pyRepr v
  | (k, v) :: f :: fs =>
      pyQuote ++ k ++ pyQuote ++ ": " ++ pyRepr v ++ ", " ++ pyReprObj (f :: fs)
end

/-- Python `str()` of a decoded JSON value, as used inside f-strings. -/
def pyStr : JVal → String
  | .jstr s => s
  | v => pyRepr v

/-- Truthiness of `os.getenv` results: `None` and the empty string are
falsy, so `if not TOKEN` fires for both an unset and an empty variable. -/
def isTruthy : Option String → Bool
  | none => false
  | some s => !(s == "")

/-! ## Upstream HTTP model

A `requests.get` call is described by the request the adapter builds (URL,
`params=` query dict, headers) and answered by the environment: either a
raised network exception, or a response with a status code and a body that
`.json()` either decodes (`.ok`) or fails to parse (`.error`, carrying the
`JSONDecodeError` message such as "Expecting value: line 1 column 1
(char 0)").  The environment is a script `Upstream` giving the result of
the n-th call an adapter makes. -/

structure HttpRequest where
  url : String
  params : List (String × String)
  headers : List (String × String)
deriving DecidableEq

inductive UpstreamResult where
  | netFail : UpstreamResult
  | resp (status : Nat) (body : Except String JVal) : UpstreamResult

def Upstream : Type := Nat → UpstreamResult

/-- `requests` `Response.raise_for_status`: raises `HTTPError` exactly for
4xx and 5xx status codes. -/
def raisesForStatus (s : Nat) : Bool := 400 ≤ s && s < 600

/-- The composite `response = requests.get(...)`, `response.raise_for_status()`,
`response.json()`: a network failure or an error status raises a
non-`ValueError` exception, while an undecodable body on a success status
raises `JSONDecodeError` — a `ValueError` subclass — whose `str()` is the
decode message. -/
def getJson : UpstreamResult → Except PyError JVal
  | .netFail => .error .exn
  | .resp s b =>
      if raisesForStatus s then .error .exn
      else match b with
        | .ok v => .ok v
        | .error msg => .error (.valueError msg)

/-- An adapter run: the Python pair `(posts, next_token)` (or the exception
it raised) together with the list of upstream HTTP calls it issued. -/
structure AdapterOutcome where
  result : Except PyError (List JVal × Option JVal)
  calls : List HttpRequest

/-! ## Twitter adapter (`fetch_twitter_posts`, src/app.py:287-307) -/

def twitterUserRequest (token : String) : HttpRequest where
  url := "https://api.twitter.com/2/users/by/username/ten_met"
  params := []
  headers := [("Authorization", "Bearer " ++ token)]

def twitterTweetsRequest (token user_id page_token : String) : HttpRequest where
  url := "https://api.twitter.com/2/users/" ++ user_id ++ "/tweets"
  params := if page_token = "" then [] else [("pagination_token", page_token)]
  headers := [("Authorization", "Bearer " ++ token)]

/-- The list comprehension over `tweets.get('data', [])` normalizing each
timeline item to `{"url": f"https://x.com/ten_met/status/{t['id']}",
"text": t['text']}`. -/
def twitterPostsOf (tweets : JVal) : Except PyError (List JVal) := do
  let data ← pyGet tweets "data" (.jarr [])
  let items ← pyIter data
  items.mapM (fun t => do
    let tid ← pyIndex t "id"
    let text ← pyIndex t "text"
    pure (JVal.jobj [("url", .jstr ("https://x.com/ten_met/status/" ++ pyStr tid)),
                     ("text", text)]))

/-- `tweets.get('meta', {}).get('next_token')`. -/
def twitterNextOf (tweets : JVal) : Except PyError (Option JVal) := do
  let meta ← pyGet tweets "meta" (.jobj [])
  pyGetOpt meta "next_token"

def fetch_twitter_posts (TWITTER_BEARER_TOKEN : Option String) (up : Upstream)
    (page_token : String) : AdapterOutcome :=
  if !(isTruthy TWITTER_BEARER_TOKEN) then
    ⟨.error (.valueError "Twitter Bearer Token is missing."), []⟩
  else
    let token := TWITTER_BEARER_TOKEN.getD ""
    let req1 := twitterUserRequest token
    match getJson (up 0) with
    | .error e => ⟨.error e, [req1]⟩
    | .ok userBody =>
      match (do let d ← pyIndex userBody "data"; pyIndex d "id") with
      | .error e => ⟨.error e, [req1]⟩
      | .ok idVal =>
        let user_id := pyStr idVal
        let req2 := twitterTweetsRequest token user_id page_token
        match getJson (up 1) with
        | .error e => ⟨.error e, [req1, req2]⟩
        | .ok tweets =>
          match twitterPostsOf tweets with
          | .error e => ⟨.error e, [req1, req2]⟩
          | .ok posts =>
            match twitterNextOf tweets with
            | .error e => ⟨.error e, [req1, req2]⟩
            | .ok next => ⟨.ok (posts, next), [req1, req2]⟩

/-! ## Instagram adapter (`fetch_instagram_posts`, src/app.py:309-319) -/

def instagramRequest (token : String) : HttpRequest where
  url := "https://graph.instagram.com/me/media?fields=id,caption,media_url,permalink&access_token="
          ++ token
  params := []
  headers := []

/-- The comprehension over `response.json().get('data', [])` normalizing
each media item to `{"url": p["permalink"], "image": p["media_url"],
"caption": p.get("caption", "")}`. -/
def instagramPostsOf (body : JVal) : Except PyError (List JVal) := do
  let posts ← pyGet body "data" (.jarr [])
  let items ← pyIter posts
  items.mapM (fun p => do
    let permalink ← pyIndex p "permalink"
    let media ← pyIndex p "media_url"
    let caption ← pyGet p "caption" (.jstr "")
    pure (JVal.jobj [("url", permalink), ("image", media), ("caption", caption)]))

def fetch_instagram_posts (INSTAGRAM_ACCESS_TOKEN : Option String) (up : Upstream)
    (_page_token : String) : AdapterOutcome :=
  if !(isTruthy INSTAGRAM_ACCESS_TOKEN) then
    ⟨.error (.valueError "Instagram Access Token is missing."), []⟩
  else
    let req := instagramRequest (INSTAGRAM_ACCESS_TOKEN.getD "")
    match getJson (up 0) with
    | .error e => ⟨.error e, [req]⟩
    | .ok body =>
      match instagramPostsOf body with
      | .error e => ⟨.error e, [req]⟩
      | .ok formatted => ⟨.ok (formatted, none), [req]⟩

/-! ## YouTube adapter (`fetch_youtube_videos`, src/app.py:321-334) -/

def youtubeRequest (key page_token : String) : HttpRequest where
  url := "https://www.googleapis.com/youtube/v3/search?key=" ++ key
          ++ "&channelId=UCg3xPZvGFCf9zW6fFNb-MNA&part=snippet&type=video&order=date&maxResults=5"
          ++ (if page_token = "" then "" else "&pageToken=" ++ page_token)
  params := []
  headers := []

/-- The comprehension over `videos.get('items', [])` normalizing each item
to `{"url": f"https://www.youtube.com/watch?v={v['id']['videoId']}",
"title": v["snippet"]["title"],
"thumbnail": v["snippet"]["thumbnails"]["high"]["url"]}`. -/
def youtubePostsOf (videos : JVal) : Except PyError (List JVal) := do
  let items ← pyGet videos "items" (.jarr [])
  let elems ← pyIter items
  elems.mapM (fun v => do
    let vidObj ← pyIndex v "id"
    let vid ← pyIndex vidObj "videoId"
    let snippet ← pyIndex v "snippet"
    let title ← pyIndex snippet "title"
    let thumbs ← pyIndex snippet "thumbnails"
    let high ← pyIndex thumbs "high"
    let thumbUrl ← pyIndex high "url"
    pure (JVal.jobj [("url", .jstr ("https://www.youtube.com/watch?v=" ++ pyStr vid)),
                     ("title", title), ("thumbnail", thumbUrl)]))

/-- `videos.get('nextPageToken')`. -/
def youtubeNextOf (videos : JVal) : Except PyError (Option JVal) :=
  pyGetOpt videos "nextPageToken"

def fetch_youtube_videos (YOUTUBE_API_KEY : Option String) (up : Upstream)
    (page_token : String) : AdapterOutcome :=
  if !(isTruthy YOUTUBE_API_KEY) then
    ⟨.error (.valueError "YouTube API Key is missing."), []⟩
  else
    let req := youtubeRequest (YOUTUBE_API_KEY.getD "") page_token
    match getJson (up 0) with
    | .error e => ⟨.error e, [req]⟩
    | .ok videos =>
      match youtubePostsOf videos with
      | .error e => ⟨.error e, [req]⟩
      | .ok posts =>
        match youtubeNextOf videos with
        | .error e => ⟨.error e, [req]⟩
        | .ok next => ⟨.ok (posts, next), [req]⟩

/-! ## Feed router (`fetch_social_media_content`, src/app.py:264-285) -/

/-- The three social-media credentials read from the environment at
module load (src/app.py:44-46); `none` models an unset variable. -/
structure Env where
  TWITTER_BEARER_TOKEN : Option String
  INSTAGRAM_ACCESS_TOKEN : Option String
  YOUTUBE_API_KEY : Option String

/-- The query parameters the endpoint reads: `request.args.get('platform')`
(no default, so `none` when absent) and `request.args.get('page', '')`. -/
structure Request where
  platform : Option String
  page : Option String
deriving DecidableEq

/-- A Flask response as produced by `jsonify(...)` plus a status code
(200 when none is given). -/
structure HttpResponse where
  status : Nat
  body : JVal

def errBody (msg : String) : JVal := .jobj [("error", .jstr msg)]

/-- `jsonify({"posts": posts, "next_page_token": next_token})`; Python
`None` serializes to JSON `null`. -/
def successBody (posts : List JVal) (next : Option JVal) : JVal :=
  .jobj [("posts", .jarr posts), ("next_page_token", next.getD .jnull)]

/-- The `platforms` dict: platform string → adapter, `none` on a miss. -/
def dispatch (env : Env) (platform : String) :
    Option (Upstream → String → AdapterOutcome) :=
  match platform with
  | "twitter" => some (fetch_twitter_posts env.TWITTER_BEARER_TOKEN)
  | "instagram" => some (fetch_instagram_posts env.INSTAGRAM_ACCESS_TOKEN)
  | "youtube" => some (fetch_youtube_videos env.YOUTUBE_API_KEY)
  | _ => none

/-- One run of the view function: the response plus how many adapter
invocations (0 or 1) and which upstream HTTP calls it made. -/
structure RouteOutcome where
  resp : HttpResponse
  adapterCalls : Nat
  httpCalls : List HttpRequest

def fetch_social_media_content (env : Env) (up : Upstream) (req : Request) :
    RouteOutcome :=
  let page_token := req.page.getD ""
  match req.platform with
  | none => ⟨⟨400, errBody "Invalid platform specified"⟩, 0, []⟩
  | some p =>
    match dispatch env p with
    | none => ⟨⟨400, errBody "Invalid platform specified"⟩, 0, []⟩
    | some adapter =>
      let o := adapter up page_token
      match o.result with
      | .ok (posts, next) => ⟨⟨200, successBody posts next⟩, 1, o.calls⟩
      | .error (.valueError msg) => ⟨⟨400, errBody msg⟩, 1, o.calls⟩
      | .error .exn => ⟨⟨500, errBody "Failed to fetch posts."⟩, 1, o.calls⟩

/-! ## Cache wrapper (`@cache.cached(timeout=300, query_string=True)`,
src/app.py:23 and 265)

Flask-caching with `query_string=True` keys the view's cache entry on the
request path plus the sorted list of query-argument pairs; the path is the
fixed `/api/social-media`, so the key is determined by the sorted present
parameters.  The backing `SimpleCache` stores `expires = now + timeout`
on `set` and serves an entry on `get` exactly while `now < expires`;
`set` overwrites the key, modelled by prepending with first-match lookup.
Time is a natural number of seconds. -/

abbrev CacheKey := List (String × String)

/-- The sorted present query parameters (`"page" < "platform"`). -/
def queryStringKey (req : Request) : CacheKey :=
  (match req.page with | none => [] | some p => [("page", p)]) ++
  (match req.platform with | none => [] | some s => [("platform", s)])

structure CacheEntry where
  value : HttpResponse
  expires : Nat

def CacheState : Type := List (CacheKey × CacheEntry)

def cacheLookup : CacheState → CacheKey → Option CacheEntry
  | [], _ => none
  | (k2, e) :: rest, k => if k2 = k then some e else cacheLookup rest k

def cacheGet (c : CacheState) (k : CacheKey) (now : Nat) : Option HttpResponse :=
  match cacheLookup c k with
  | some e => if now < e.expires then some e.value else none
  | none => none

def cacheSet (c : CacheState) (k : CacheKey) (v : HttpResponse) (now : Nat) :
    CacheState :=
  (k, ⟨v, now + 300⟩) :: c

/-- The cached view: on a hit the stored response is returned with no view
body executed (0 adapter invocations, no HTTP calls); on a miss the view
runs and its response — whatever its status — is stored under the
query-string key with the fixed 300-second timeout. -/
structure ServeOutcome where
  resp : HttpResponse
  cache : CacheState
  adapterCalls : Nat
  httpCalls : List HttpRequest

def cachedFetch (env : Env) (up : Upstream) (c : CacheState) (now : Nat)
    (req : Request) : ServeOutcome :=
  let k := queryStringKey req
  match cacheGet c k now with
  | some r => ⟨r, c, 0, []⟩
  | none =>
    let o := fetch_social_media_content env up req
    ⟨o.resp, cacheSet c k o.resp now, o.adapterCalls, o.httpCalls⟩

/-! ## Mock environments, upstream scripts and example bodies -/

def envNone : Env := ⟨none, none, none⟩

def envAll : Env := ⟨some "TT", some "IT", some "YK"⟩

/-- An upstream whose every call raises a network error. -/
def upFail : Upstream := fun _ => .netFail

/-- An upstream answering every call with HTTP 200 and the given body. -/
def okOracle (body : JVal) : Upstream := fun _ => .resp 200 (.ok body)

/-- An upstream answering every call with HTTP 200 and a body that fails
to decode as JSON, with the decode message an empty-body parse produces. -/
def upBadJson : Upstream :=
  fun _ => .resp 200 (.error "Expecting value: line 1 column 1 (char 0)")

/-- The user-lookup body `{"data": {"id": uid}}`. -/
def twUserBody (uid : String) : JVal := .jobj [("data", .jobj [("id", .jstr uid)])]

/-- A Twitter upstream: the first call resolves the username to `uid`,
every later call returns `tweetsBody`. -/
def twOracle (uid : String) (tweetsBody : JVal) : Upstream :=
  fun n => if n = 0 then .resp 200 (.ok (twUserBody uid)) else .resp 200 (.ok tweetsBody)

/-- The timeline body `{"data": [{"id": "1", "text": "hello"}],
"meta": {"next_token": "abc"}}` of the spec's Twitter example. -/
def twTweetsExample : JVal :=
  .jobj [("data", .jarr [.jobj [("id", .jstr "1"), ("text", .jstr "hello")]]),
         ("meta", .jobj [("next_token", .jstr "abc")])]

/-- A timeline body with no `data` field but a continuation token:
`{"meta": {"next_token": "abc"}}`. -/
def twNoData : JVal := .jobj [("meta", .jobj [("next_token", .jstr "abc")])]

/-- The search body holding the spec's YouTube example item. -/
def ytExample : JVal :=
  .jobj [("items", .jarr [.jobj [("id", .jobj [("videoId", .jstr "v1")]),
    ("snippet", .jobj [("title", .jstr "T"),
      ("thumbnails", .jobj [("high", .jobj [("url", .jstr "http://img")])])])]])]

/-- An Instagram media listing with an empty `data` list. -/
def igEmptyBody : JVal := .jobj [("data", .jarr [])]

/-- An upstream call that raises a non-`ValueError` exception in the
adapter — a network failure or a 4xx/5xx status — which the router
collapses to the generic 500.  A success-status body that fails to decode
is NOT among these: its `JSONDecodeError` subclasses `ValueError`. -/
def callFails : UpstreamResult → Bool
  | .netFail => true
  | .resp s _ => raisesForStatus s

/-! ## Helper lemmas -/

theorem errBody_inj (a b : String) : errBody a = errBody b ↔ a = b := by
  simp [errBody]

theorem getJson_of_callFails (u : UpstreamResult) (h : callFails u = true) :
    getJson u = .error .exn := by
  cases u with
  | netFail => rfl
  | resp s b =>
    simp only [callFails] at h
    simp only [getJson]
    simp [h]

theorem cachedFetch_miss (env : Env) (up : Upstream) (c0 : CacheState) (t0 : Nat)
    (req : Request) (hmiss : cacheGet c0 (queryStringKey req) t0 = none) :
    cachedFetch env up c0 t0 req =
      ⟨(fetch_social_media_content env up req).resp,
       cacheSet c0 (queryStringKey req) (fetch_social_media_content env up req).resp t0,
       (fetch_social_media_content env up req).adapterCalls,
       (fetch_social_media_content env up req).httpCalls⟩ := by
  simp only [cachedFetch]
  rw [hmiss]

theorem cachedFetch_hit (env : Env) (up : Upstream) (c : CacheState) (t : Nat)
    (req : Request) (r : HttpResponse)
    (hhit : cacheGet c (queryStringKey req) t = some r) :
    cachedFetch env up c t req = ⟨r, c, 0, []⟩ := by
  simp only [cachedFetch]
  rw [hhit]

theorem cacheGet_set_within (c : CacheState) (k : CacheKey) (v : HttpResponse)
    (t0 t1 : Nat) (h : t1 < t0 + 300) :
    cacheGet (cacheSet c k v t0) k t1 = some v := by
  simp [cacheGet, cacheSet, cacheLookup, h]

theorem cacheGet_set_expired (c : CacheState) (k : CacheKey) (v : HttpResponse)
    (t0 t1 : Nat) (h : t0 + 300 ≤ t1) :
    cacheGet (cacheSet c k v t0) k t1 = none := by
  simp [cacheGet, cacheSet, cacheLookup]
  omega

/-- A 200 response from the view implies the platform dispatched, so any
rerun of the view (whatever its upstream does) invokes exactly one
adapter. -/
theorem router_adapterCalls_of_200 (env : Env) (up : Upstream) (req : Request)
    (h : (fetch_social_media_content env up req).resp.status = 200) (up2 : Upstream) :
    (fetch_social_media_content env up2 req).adapterCalls = 1 := by
  obtain ⟨pl, pg⟩ := req
  cases pl with
  | none => simp [fetch_social_media_content] at h
  | some p =>
    simp only [fetch_social_media_content] at h ⊢
    cases hd : dispatch env p with
    | none => rw [hd] at h; simp at h
    | some f =>
      show (match (f up2 (pg.getD "")).result with
        | Except.ok (posts, next) =>
            (⟨⟨200, successBody posts next⟩, 1, (f up2 (pg.getD "")).calls⟩ : RouteOutcome)
        | .error (.valueError msg) => ⟨⟨400, errBody msg⟩, 1, (f up2 (pg.getD "")).calls⟩
        | .error .exn =>
            ⟨⟨500, errBody "Failed to fetch posts."⟩, 1, (f up2 (pg.getD "")).calls⟩).adapterCalls = 1
      split <;> rfl

/-! ## Claims -/

/-- C1: a request whose platform parameter is anything other than
twitter, instagram or youtube (absent included) is answered with
HTTP 400 and body `{"error": "Invalid platform specified"}`, with no
adapter invoked and no upstream HTTP call made. -/
theorem invalid_platform_rejected (env : Env) (up : Upstream) (req : Request)
    (h1 : req.platform ≠ some "twitter") (h2 : req.platform ≠ some "instagram")
    (h3 : req.platform ≠ some "youtube") :
    fetch_social_media_content env up req =
      ⟨⟨400, errBody "Invalid platform specified"⟩, 0, []⟩ := by
  obtain ⟨pl, pg⟩ := req
  cases pl with
  | none => rfl
  | some p =>
    have k1 : ¬(p = "twitter") := by simpa using h1
    have k2 : ¬(p = "instagram") := by simpa using h2
    have k3 : ¬(p = "youtube") := by simpa using h3
    simp [fetch_social_media_content, dispatch, k1, k2, k3]

theorem invalid_platform_rejected_witness :
    fetch_social_media_content envNone upFail ⟨some "facebook", none⟩ =
      ⟨⟨400, errBody "Invalid platform specified"⟩, 0, []⟩ :=
  invalid_platform_rejected envNone upFail ⟨some "facebook", none⟩
    (by decide) (by decide) (by decide)

/-- C3: for each valid platform whose credential is unset (or empty, both
falsy in Python), the endpoint answers HTTP 400 with a message naming the
missing credential, and no upstream HTTP call is made. -/
theorem missing_credential_named (env : Env) (up : Upstream) (page : Option String) :
    (isTruthy env.TWITTER_BEARER_TOKEN = false →
      fetch_social_media_content env up ⟨some "twitter", page⟩ =
        ⟨⟨400, errBody "Twitter Bearer Token is missing."⟩, 1, []⟩) ∧
    (isTruthy env.INSTAGRAM_ACCESS_TOKEN = false →
      fetch_social_media_content env up ⟨some "instagram", page⟩ =
        ⟨⟨400, errBody "Instagram Access Token is missing."⟩, 1, []⟩) ∧
    (isTruthy env.YOUTUBE_API_KEY = false →
      fetch_social_media_content env up ⟨some "youtube", page⟩ =
        ⟨⟨400, errBody "YouTube API Key is missing."⟩, 1, []⟩) := by
  refine ⟨fun h => ?_, fun h => ?_, fun h => ?_⟩ <;>
    simp [fetch_social_media_content, dispatch, fetch_twitter_posts,
          fetch_instagram_posts, fetch_youtube_videos, h]

theorem missing_credential_named_witness :
    isTruthy envNone.TWITTER_BEARER_TOKEN = false ∧
    fetch_social_media_content envNone upFail ⟨some "twitter", none⟩ =
      ⟨⟨400, errBody "Twitter Bearer Token is missing."⟩, 1, []⟩ :=
  ⟨rfl, (missing_credential_named envNone upFail none).1 rfl⟩

/-- C4 counterexample: with the Twitter credential unset, the 400 body is
`{"error": "Twitter Bearer Token is missing."}`, which differs from the
unknown-platform body `{"error": "Invalid platform specified"}`. -/
theorem missing_credential_body_counterexample :
    fetch_social_media_content envNone upFail ⟨some "twitter", none⟩ =
      ⟨⟨400, errBody "Twitter Bearer Token is missing."⟩, 1, []⟩ ∧
    errBody "Twitter Bearer Token is missing." ≠ errBody "Invalid platform specified" := by
  refine ⟨rfl, fun h => ?_⟩
  rw [errBody_inj] at h
  simp at h

/-- C4 amended: for each valid platform with its credential unset, the 400
body names that credential (e.g. `{"error": "Twitter Bearer Token is
missing."}`); it is not the invalid-platform body. -/
theorem missing_credential_body_differs (env : Env) (up : Upstream) (page : Option String) :
    (isTruthy env.TWITTER_BEARER_TOKEN = false →
      (fetch_social_media_content env up ⟨some "twitter", page⟩).resp =
        ⟨400, errBody "Twitter Bearer Token is missing."⟩ ∧
      (fetch_social_media_content env up ⟨some "twitter", page⟩).resp.body ≠
        errBody "Invalid platform specified") ∧
    (isTruthy env.INSTAGRAM_ACCESS_TOKEN = false →
      (fetch_social_media_content env up ⟨some "instagram", page⟩).resp =
        ⟨400, errBody "Instagram Access Token is missing."⟩ ∧
      (fetch_social_media_content env up ⟨some "instagram", page⟩).resp.body ≠
        errBody "Invalid platform specified") ∧
    (isTruthy env.YOUTUBE_API_KEY = false →
      (fetch_social_media_content env up ⟨some "youtube", page⟩).resp =
        ⟨400, errBody "YouTube API Key is missing."⟩ ∧
      (fetch_social_media_content env up ⟨some "youtube", page⟩).resp.body ≠
        errBody "Invalid platform specified") := by
  refine ⟨fun h => ⟨?_, ?_⟩, fun h => ⟨?_, ?_⟩, fun h => ⟨?_, ?_⟩⟩ <;>
    simp [fetch_social_media_content, dispatch, fetch_twitter_posts,
          fetch_instagram_posts, fetch_youtube_videos, h, errBody]

theorem missing_credential_body_differs_witness :
    isTruthy envNone.TWITTER_BEARER_TOKEN = false ∧
    ((fetch_social_media_content envNone upFail ⟨some "twitter", none⟩).resp =
        ⟨400, errBody "Twitter Bearer Token is missing."⟩ ∧
      (fetch_social_media_content envNone upFail ⟨some "twitter", none⟩).resp.body ≠
        errBody "Invalid platform specified") :=
  ⟨rfl, (missing_credential_body_differs envNone upFail none).1 rfl⟩

/-- C5: the Instagram adapter ignores the cursor entirely — its outcome is
that of the empty cursor, its only upstream call (made when the credential
is set) is the fixed parameterless media-listing request, and a successful
result always carries an absent next cursor. -/
theorem instagram_ignores_cursor (tok : Option String) (up : Upstream)
    (page_token : String) :
    fetch_instagram_posts tok up page_token = fetch_instagram_posts tok up "" ∧
    (fetch_instagram_posts tok up page_token).calls =
      (if isTruthy tok then [instagramRequest (tok.getD "")] else []) ∧
    (∀ posts next,
      (fetch_instagram_posts tok up page_token).result = .ok (posts, next) →
        next = none) := by
  refine ⟨rfl, ?_, ?_⟩
  · unfold fetch_instagram_posts
    cases h : isTruthy tok with
    | false => simp [h]
    | true =>
      simp only [h, Bool.not_true, Bool.false_eq_true, if_false]
      split
      · rfl
      · split <;> rfl
  · intro posts next hres
    unfold fetch_instagram_posts at hres
    cases h : isTruthy tok with
    | false => simp [h] at hres
    | true =>
      simp only [h, Bool.not_true, Bool.false_eq_true, if_false] at hres
      split at hres
      · simp at hres
      · split at hres
        · simp at hres
        · simp only [AdapterOutcome.mk.injEq, Except.ok.injEq, Prod.mk.injEq] at hres
          exact hres.2.symm

theorem instagram_ignores_cursor_witness :
    fetch_instagram_posts (some "IT") (okOracle igEmptyBody) "CURSOR" =
        fetch_instagram_posts (some "IT") (okOracle igEmptyBody) "" ∧
    (fetch_instagram_posts (some "IT") (okOracle igEmptyBody) "CURSOR").calls =
      (if isTruthy (some "IT") then [instagramRequest ((some "IT").getD "")] else []) ∧
    (none : Option JVal) = none := by
  obtain ⟨a, b, c⟩ :=
    instagram_ignores_cursor (some "IT") (okOracle igEmptyBody) "CURSOR"
  exact ⟨a, b, c [] none rfl⟩

/-- C6: the Twitter adapter issues the user lookup followed by the timeline
request, whose `pagination_token` parameter carries the cursor exactly when
the cursor is non-empty; on the spec's example body
(`posts [{id:"1", text:"hello"}]`, `meta {next_token:"abc"}`) it returns
the normalized post `{url: "https://x.com/ten_met/status/1", text:
"hello"}` with next cursor `"abc"`. -/
theorem twitter_cursor_and_normalization (tok uid : String) (tweetsBody : JVal)
    (cursor : String) (htok : tok ≠ "") :
    (fetch_twitter_posts (some tok) (twOracle uid tweetsBody) cursor).calls =
      [twitterUserRequest tok, twitterTweetsRequest tok uid cursor] ∧
    (twitterTweetsRequest tok uid cursor).params =
      (if cursor = "" then [] else [("pagination_token", cursor)]) ∧
    fetch_twitter_posts (some "TT") (twOracle "42" twTweetsExample) "" =
      ⟨.ok ([.jobj [("url", .jstr "https://x.com/ten_met/status/1"),
                    ("text", .jstr "hello")]], some (.jstr "abc")),
       [twitterUserRequest "TT", twitterTweetsRequest "TT" "42" ""]⟩ := by
  refine ⟨?_, rfl, rfl⟩
  have h1 : (!(isTruthy (some tok))) = false := by simp [isTruthy, htok]
  unfold fetch_twitter_posts
  rw [h1]
  show (match twitterPostsOf tweetsBody with
      | .error e =>
          (⟨.error e,
            [twitterUserRequest tok, twitterTweetsRequest tok uid cursor]⟩ : AdapterOutcome)
      | .ok posts =>
          match twitterNextOf tweetsBody with
          | .error e =>
              ⟨.error e, [twitterUserRequest tok, twitterTweetsRequest tok uid cursor]⟩
          | .ok next =>
              ⟨.ok (posts, next),
               [twitterUserRequest tok, twitterTweetsRequest tok uid cursor]⟩).calls =
    [twitterUserRequest tok, twitterTweetsRequest tok uid cursor]
  split
  · rfl
  · split <;> rfl

theorem twitter_cursor_and_normalization_witness :
    (fetch_twitter_posts (some "TT") (twOracle "42" twTweetsExample) "xyz").calls =
      [twitterUserRequest "TT", twitterTweetsRequest "TT" "42" "xyz"] ∧
    (twitterTweetsRequest "TT" "42" "xyz").params =
      (if "xyz" = "" then [] else [("pagination_token", "xyz")]) ∧
    fetch_twitter_posts (some "TT") (twOracle "42" twTweetsExample) "" =
      ⟨.ok ([.jobj [("url", .jstr "https://x.com/ten_met/status/1"),
                    ("text", .jstr "hello")]], some (.jstr "abc")),
       [twitterUserRequest "TT", twitterTweetsRequest "TT" "42" ""]⟩ :=
  twitter_cursor_and_normalization "TT" "42" twTweetsExample "xyz" (by decide)

/-- C7: the YouTube adapter issues one search call whose URL is scoped to
the hard-coded channel, video type, date order and page size 5, appending
`pageToken` exactly when the cursor is non-empty; on the spec's example
item (`{id:{videoId:"v1"}, snippet:{title:"T", thumbnails:{high:{url:
"http://img"}}}}`) it returns the normalized post `{url:
"https://www.youtube.com/watch?v=v1", title: "T", thumbnail:
"http://img"}`. -/
theorem youtube_request_and_normalization (key cursor : String) (body : JVal)
    (hkey : key ≠ "") :
    (fetch_youtube_videos (some key) (okOracle body) cursor).calls =
      [youtubeRequest key cursor] ∧
    (youtubeRequest key cursor).url =
      "https://www.googleapis.com/youtube/v3/search?key=" ++ key
        ++ "&channelId=UCg3xPZvGFCf9zW6fFNb-MNA&part=snippet&type=video&order=date&maxResults=5"
        ++ (if cursor = "" then "" else "&pageToken=" ++ cursor) ∧
    fetch_youtube_videos (some "YK") (okOracle ytExample) "CUR" =
      ⟨.ok ([.jobj [("url", .jstr "https://www.youtube.com/watch?v=v1"),
                    ("title", .jstr "T"), ("thumbnail", .jstr "http://img")]], none),
       [youtubeRequest "YK" "CUR"]⟩ := by
  refine ⟨?_, rfl, rfl⟩
  have h1 : (!(isTruthy (some key))) = false := by simp [isTruthy, hkey]
  unfold fetch_youtube_videos
  rw [h1]
  show (match youtubePostsOf body with
      | .error e => (⟨.error e, [youtubeRequest key cursor]⟩ : AdapterOutcome)
      | .ok posts =>
          match youtubeNextOf body with
          | .error e => ⟨.error e, [youtubeRequest key cursor]⟩
          | .ok next => ⟨.ok (posts, next), [youtubeRequest key cursor]⟩).calls =
    [youtubeRequest key cursor]
  split
  · rfl
  · split <;> rfl

theorem youtube_request_and_normalization_witness :
    (fetch_youtube_videos (some "YK") (okOracle ytExample) "CUR").calls =
      [youtubeRequest "YK" "CUR"] ∧
    (youtubeRequest "YK" "CUR").url =
      "https://www.googleapis.com/youtube/v3/search?key=" ++ "YK"
        ++ "&channelId=UCg3xPZvGFCf9zW6fFNb-MNA&part=snippet&type=video&order=date&maxResults=5"
        ++ (if "CUR" = "" then "" else "&pageToken=" ++ "CUR") ∧
    fetch_youtube_videos (some "YK") (okOracle ytExample) "CUR" =
      ⟨.ok ([.jobj [("url", .jstr "https://www.youtube.com/watch?v=v1"),
                    ("title", .jstr "T"), ("thumbnail", .jstr "http://img")]], none),
       [youtubeRequest "YK" "CUR"]⟩ :=
  youtube_request_and_normalization "YK" "CUR" ytExample (by decide)

/-- C8 counterexample: with the Instagram credential set and an upstream
returning HTTP 200 with an undecodable body, the `JSONDecodeError` (a
`ValueError` subclass) is caught by the router's `except ValueError`
branch, so the endpoint answers 400 carrying the decode message — not the
generic 500 body the claim asserts for malformed bodies. -/
theorem malformed_body_counterexample :
    fetch_social_media_content envAll upBadJson ⟨some "instagram", none⟩ =
      ⟨⟨400, errBody "Expecting value: line 1 column 1 (char 0)"⟩, 1,
       [instagramRequest "IT"]⟩ ∧
    (HttpResponse.mk 400 (errBody "Expecting value: line 1 column 1 (char 0)")) ≠
      ⟨500, errBody "Failed to fetch posts."⟩ := by
  refine ⟨rfl, fun h => ?_⟩
  have := congrArg HttpResponse.status h
  simp at this

/-- C8 amended: for any valid platform with its credential set, an
upstream call that fails with a network error or a 4xx/5xx status makes
the adapter raise a non-`ValueError` exception and the endpoint answers
HTTP 500 with exactly the generic body `{"error": "Failed to fetch
posts."}`; a success-status body that fails to decode instead raises
`JSONDecodeError`, a `ValueError` subclass, which the endpoint returns as
HTTP 400 whose body carries the decode message — that upstream detail is
exposed to the client. -/
theorem upstream_failure_routing (env : Env) (up : Upstream) (p : String)
    (page : Option String)
    (hp : p = "twitter" ∨ p = "instagram" ∨ p = "youtube")
    (ht : isTruthy env.TWITTER_BEARER_TOKEN = true)
    (hi : isTruthy env.INSTAGRAM_ACCESS_TOKEN = true)
    (hy : isTruthy env.YOUTUBE_API_KEY = true) :
    (callFails (up 0) = true →
      (fetch_social_media_content env up ⟨some p, page⟩).resp =
        ⟨500, errBody "Failed to fetch posts."⟩) ∧
    (∀ s m, up 0 = .resp s (.error m) → raisesForStatus s = false →
      (fetch_social_media_content env up ⟨some p, page⟩).resp =
        ⟨400, errBody m⟩) := by
  constructor
  · intro hfail
    have hget := getJson_of_callFails (up 0) hfail
    rcases hp with h | h | h <;> subst h <;>
      simp [fetch_social_media_content, dispatch, fetch_twitter_posts,
            fetch_instagram_posts, fetch_youtube_videos, ht, hi, hy, hget]
  · intro s m hu hs
    have hget : getJson (up 0) = .error (.valueError m) := by
      rw [hu]; simp [getJson, hs]
    rcases hp with h | h | h <;> subst h <;>
      simp [fetch_social_media_content, dispatch, fetch_twitter_posts,
            fetch_instagram_posts, fetch_youtube_videos, ht, hi, hy, hget]

theorem upstream_failure_routing_witness :
    (fetch_social_media_content envAll upFail ⟨some "twitter", none⟩).resp =
      ⟨500, errBody "Failed to fetch posts."⟩ ∧
    (fetch_social_media_content envAll upBadJson ⟨some "instagram", none⟩).resp =
      ⟨400, errBody "Expecting value: line 1 column 1 (char 0)"⟩ :=
  ⟨(upstream_failure_routing envAll upFail "twitter" none
      (Or.inl rfl) rfl rfl rfl).1 rfl,
   (upstream_failure_routing envAll upBadJson "instagram" none
      (Or.inr (Or.inl rfl)) rfl rfl rfl).2
     200 "Expecting value: line 1 column 1 (char 0)" rfl rfl⟩

/-- C2: on a fresh `(platform, cursor)` key whose first call succeeds, any
identical request before the 300-second TTL (measured from the insertion
instant) is served from the cache — byte-identical response, no adapter
invocation, no upstream call — while an identical request at or after
expiry reruns the view with exactly one adapter invocation; the cache key
is the canonical query string formed from the platform and cursor
parameters. -/
theorem cache_ttl_roundtrip (env : Env) (up up2 : Upstream) (c0 : CacheState)
    (t0 : Nat) (req : Request)
    (hmiss : cacheGet c0 (queryStringKey req) t0 = none)
    (hsucc : (cachedFetch env up c0 t0 req).resp.status = 200) :
    (∀ t1, t1 < t0 + 300 →
      cachedFetch env up2 (cachedFetch env up c0 t0 req).cache t1 req =
        ⟨(cachedFetch env up c0 t0 req).resp,
         (cachedFetch env up c0 t0 req).cache, 0, []⟩) ∧
    (∀ t1, t0 + 300 ≤ t1 →
      (cachedFetch env up2 (cachedFetch env up c0 t0 req).cache t1 req).adapterCalls
        = 1) := by
  have h1 := cachedFetch_miss env up c0 t0 req hmiss
  rw [h1] at hsucc ⊢
  constructor
  · intro t1 ht
    exact cachedFetch_hit env up2 _ t1 req _
      (cacheGet_set_within c0 (queryStringKey req)
        (fetch_social_media_content env up req).resp t0 t1 ht)
  · intro t1 ht
    have hnone := cacheGet_set_expired c0 (queryStringKey req)
      (fetch_social_media_content env up req).resp t0 t1 ht
    rw [cachedFetch_miss env up2 _ t1 req hnone]
    exact router_adapterCalls_of_200 env up req hsucc up2

theorem cache_ttl_roundtrip_witness :
    cacheGet [] (queryStringKey ⟨some "youtube", some "c"⟩) 0 = none ∧
    (cachedFetch envAll (okOracle ytExample) [] 0 ⟨some "youtube", some "c"⟩).resp.status
      = 200 ∧
    cachedFetch envAll upFail
        (cachedFetch envAll (okOracle ytExample) [] 0 ⟨some "youtube", some "c"⟩).cache
        299 ⟨some "youtube", some "c"⟩ =
      ⟨(cachedFetch envAll (okOracle ytExample) [] 0 ⟨some "youtube", some "c"⟩).resp,
       (cachedFetch envAll (okOracle ytExample) [] 0 ⟨some "youtube", some "c"⟩).cache,
       0, []⟩ ∧
    (cachedFetch envAll upFail
        (cachedFetch envAll (okOracle ytExample) [] 0 ⟨some "youtube", some "c"⟩).cache
        300 ⟨some "youtube", some "c"⟩).adapterCalls = 1 := by
  have h := cache_ttl_roundtrip envAll (okOracle ytExample) upFail [] 0
    ⟨some "youtube", some "c"⟩ rfl rfl
  exact ⟨rfl, rfl, h.1 299 (by decide), h.2 300 (by decide)⟩

/-- C9: a cache miss stores the produced response — error responses
included — under the request's query-string key for 300 seconds, so an
identical request repeated within the TTL returns that same response with
no adapter invocation and no upstream call. -/
theorem every_response_cached (env : Env) (up up2 : Upstream) (c0 : CacheState)
    (t0 : Nat) (req : Request)
    (hmiss : cacheGet c0 (queryStringKey req) t0 = none) :
    (∀ t1, t1 < t0 + 300 →
      cacheGet (cachedFetch env up c0 t0 req).cache (queryStringKey req) t1 =
        some (cachedFetch env up c0 t0 req).resp) ∧
    (∀ t1, t1 < t0 + 300 →
      cachedFetch env up2 (cachedFetch env up c0 t0 req).cache t1 req =
        ⟨(cachedFetch env up c0 t0 req).resp,
         (cachedFetch env up c0 t0 req).cache, 0, []⟩) := by
  have h1 := cachedFetch_miss env up c0 t0 req hmiss
  rw [h1]
  constructor
  · intro t1 ht
    exact cacheGet_set_within c0 (queryStringKey req)
      (fetch_social_media_content env up req).resp t0 t1 ht
  · intro t1 ht
    exact cachedFetch_hit env up2 _ t1 req _
      (cacheGet_set_within c0 (queryStringKey req)
        (fetch_social_media_content env up req).resp t0 t1 ht)

theorem every_response_cached_witness :
    cacheGet [] (queryStringKey ⟨some "twitter", none⟩) 0 = none ∧
    cacheGet (cachedFetch envAll upFail [] 0 ⟨some "twitter", none⟩).cache
        (queryStringKey ⟨some "twitter", none⟩) 299 =
      some ⟨500, errBody "Failed to fetch posts."⟩ ∧
    cachedFetch envAll upFail
        (cachedFetch envAll upFail [] 0 ⟨some "twitter", none⟩).cache
        299 ⟨some "twitter", none⟩ =
      ⟨⟨500, errBody "Failed to fetch posts."⟩,
       (cachedFetch envAll upFail [] 0 ⟨some "twitter", none⟩).cache, 0, []⟩ := by
  have h := every_response_cached envAll upFail upFail [] 0 ⟨some "twitter", none⟩ rfl
  exact ⟨rfl, h.1 299 (by decide), h.2 299 (by decide)⟩

/-- C10 counterexample: a successful Twitter timeline body with no `data`
field but with `meta.next_token = "abc"` makes the adapter return an empty
post list with a PRESENT next cursor, so the next cursor is not always
absent when the list field is missing. -/
theorem missing_list_field_next_present_counterexample :
    (fetch_twitter_posts (some "TT") (twOracle "42" twNoData) "").result =
      .ok ([], some (.jstr "abc")) ∧
    some (JVal.jstr "abc") ≠ (none : Option JVal) :=
  ⟨rfl, by simp⟩

/-- C10 amended: when the upstream call succeeds and the body is an object
lacking the expected list field (`data` for Twitter and Instagram, `items`
for YouTube), each adapter returns an empty post list as a successful
result; the next cursor is computed from the body independently of the
list field — always absent for Instagram, `meta.next_token` for Twitter
and `nextPageToken` for YouTube — so it is absent only when that token is
also missing. -/
theorem missing_list_field_yields_empty_posts (tok uid page : String)
    (htok : tok ≠ "")
    (twFields igFields ytFields : List (String × JVal))
    (htw : jLookup twFields "data" = none)
    (hig : jLookup igFields "data" = none)
    (hyt : jLookup ytFields "items" = none) :
    (fetch_twitter_posts (some tok) (twOracle uid (.jobj twFields)) page).result =
      (twitterNextOf (.jobj twFields)).map (fun n => (([] : List JVal), n)) ∧
    (fetch_instagram_posts (some tok) (okOracle (.jobj igFields)) page).result =
      .ok ([], none) ∧
    (fetch_youtube_videos (some tok) (okOracle (.jobj ytFields)) page).result =
      .ok ([], jLookup ytFields "nextPageToken") := by
  have h1 : (!(isTruthy (some tok))) = false := by simp [isTruthy, htok]
  have hdtw : pyGet (.jobj twFields) "data" (.jarr []) = .ok (.jarr []) := by
    simp [pyGet, htw]
  have hdig : pyGet (.jobj igFields) "data" (.jarr []) = .ok (.jarr []) := by
    simp [pyGet, hig]
  have hdyt : pyGet (.jobj ytFields) "items" (.jarr []) = .ok (.jarr []) := by
    simp [pyGet, hyt]
  have hptw : twitterPostsOf (.jobj twFields) = .ok [] := by
    unfold twitterPostsOf; rw [hdtw]; rfl
  have hpig : instagramPostsOf (.jobj igFields) = .ok [] := by
    unfold instagramPostsOf; rw [hdig]; rfl
  have hpyt : youtubePostsOf (.jobj ytFields) = .ok [] := by
    unfold youtubePostsOf; rw [hdyt]; rfl
  refine ⟨?_, ?_, ?_⟩
  · unfold fetch_twitter_posts
    rw [h1]
    show (match twitterPostsOf (.jobj twFields) with
        | .error e =>
            (⟨.error e,
              [twitterUserRequest tok, twitterTweetsRequest tok uid page]⟩ : AdapterOutcome)
        | .ok posts =>
            match twitterNextOf (.jobj twFields) with
            | .error e =>
                ⟨.error e, [twitterUserRequest tok, twitterTweetsRequest tok uid page]⟩
            | .ok next =>
                ⟨.ok (posts, next),
                 [twitterUserRequest tok, twitterTweetsRequest tok uid page]⟩).result =
      (twitterNextOf (.jobj twFields)).map (fun n => (([] : List JVal), n))
    rw [hptw]
    cases hn : twitterNextOf (.jobj twFields) <;> simp [hn, Except.map]
  · unfold fetch_instagram_posts
    rw [h1]
    show (match instagramPostsOf (.jobj igFields) with
        | .error e => (⟨.error e, [instagramRequest tok]⟩ : AdapterOutcome)
        | .ok formatted => ⟨.ok (formatted, none), [instagramRequest tok]⟩).result =
      .ok ([], none)
    rw [hpig]
  · unfold fetch_youtube_videos
    rw [h1]
    show (match youtubePostsOf (.jobj ytFields) with
        | .error e => (⟨.error e, [youtubeRequest tok page]⟩ : AdapterOutcome)
        | .ok posts =>
            match youtubeNextOf (.jobj ytFields) with
            | .error e => ⟨.error e, [youtubeRequest tok page]⟩
            | .ok next => ⟨.ok (posts, next), [youtubeRequest tok page]⟩).result =
      .ok ([], jLookup ytFields "nextPageToken")
    rw [hpyt]
    show (match youtubeNextOf (.jobj ytFields) with
        | .error e => (⟨.error e, [youtubeRequest tok page]⟩ : AdapterOutcome)
        | .ok next => ⟨.ok ([], next), [youtubeRequest tok page]⟩).result =
      .ok ([], jLookup ytFields "nextPageToken")
    rfl

theorem missing_list_field_yields_empty_posts_witness :
    jLookup [("meta", JVal.jobj [("next_token", JVal.jstr "n")])] "data" = none ∧
    jLookup ([] : List (String × JVal)) "data" = none ∧
    jLookup [("nextPageToken", JVal.jstr "y")] "items" = none ∧
    (fetch_twitter_posts (some "TT")
        (twOracle "42" (.jobj [("meta", JVal.jobj [("next_token", JVal.jstr "n")])]))
        "").result =
      (twitterNextOf
        (.jobj [("meta", JVal.jobj [("next_token", JVal.jstr "n")])])).map
          (fun n => (([] : List JVal), n)) ∧
    (fetch_instagram_posts (some "TT") (okOracle (.jobj [])) "").result =
      .ok ([], none) ∧
    (fetch_youtube_videos (some "TT")
        (okOracle (.jobj [("nextPageToken", JVal.jstr "y")])) "").result =
      .ok ([], jLookup [("nextPageToken", JVal.jstr "y")] "nextPageToken") := by
  have h := missing_list_field_yields_empty_posts "TT" "42" "" (by decide)
    [("meta", JVal.jobj [("next_token", JVal.jstr "n")])] [] [("nextPageToken", JVal.jstr "y")]
    rfl rfl rfl
  exact ⟨rfl, rfl, rfl, h.1, h.2.1, h.2.2⟩
